import Mathlib

/-!
Verification of the deterministic reasoning core of the CERT support agent
(`src/index.ts`): intent classification, tax verification, response
evaluation and prompt composition.

Numeric model: JS numbers that hold monetary amounts and tax rates are
embedded as rationals (`ℚ`); `Math.round` is embedded as half-up rounding
`⌊q + 1/2⌋`, which is the behaviour of `Math.round` on the exact decimal
values the program manipulates.  JS strings are embedded as Lean `String`
(lists of characters); the ASCII case maps `toLowerCase`/`toUpperCase`
are `Char.toLower`/`Char.toUpper`.
-/

-- Kernel evaluation of concrete rational arithmetic needs the core `Rat`
-- operations to be unfoldable.
attribute [local semireducible] Rat.mul Rat.add Rat.inv Rat.sub Rat.ofScientific

namespace CertAgent

/-- The whitespace characters recognised by JS `trim` and `\s` (ASCII subset). -/
def jsWs (c : Char) : Bool :=
  c = ' ' || c = '\t' || c = '\n' || c = '\r' || c = '\x0b' || c = '\x0c'

/-- Embedding of `String.prototype.toLowerCase` (ASCII). -/
def lowerStr (s : String) : String := ⟨s.data.map Char.toLower⟩

/-- Embedding of `String.prototype.toUpperCase` (ASCII). -/
def upperStr (s : String) : String := ⟨s.data.map Char.toUpper⟩

/-- Drop a trailing run of characters satisfying `p`. -/
def dropTrail (p : Char → Bool) (l : List Char) : List Char :=
  ((l.reverse).dropWhile p).reverse

/-- Embedding of `String.prototype.trim`: strip leading and trailing whitespace. -/
def jsTrim (s : String) : String := ⟨dropTrail jsWs (s.data.dropWhile jsWs)⟩

/-- Does `h` start with `n`?  (List-level `startsWith`.) -/
def lstarts : List Char → List Char → Bool
  | [], _ => true
  | _ :: _, [] => false
  | p :: ps, c :: cs => p = c && lstarts ps cs

/-- Does `h` contain `n` as a contiguous substring?
`JS String.prototype.includes` (note `includes ""` is `true`). -/
def lcontains (n : List Char) : List Char → Bool
  | [] => lstarts n []
  | c :: rest => lstarts n (c :: rest) || lcontains n (c :: rest).tail

/-- Embedding of `a.includes(b)` on strings. -/
def sContains (hay needle : String) : Bool := lcontains needle.data hay.data

/-- JS `Math.round` on an exact rational: half-up rounding to an integer. -/
def jsRound (q : ℚ) : ℤ := ⌊q + 1/2⌋

/-- Embedding of `Math.round(q * 100) / 100`: rounding to the cent. -/
def round2 (q : ℚ) : ℚ := (jsRound (q * 100) : ℚ) / 100

-- ── Data types (from the `Order`, `TaxVerificationResult`, `EvalMetrics`
--    and `Intent` declarations of `index.ts`) ─────────────────────────────

structure Order where
  order_id : String
  customer_name : String
  customer_state : String
  customer_county : String
  status : String
  tracking_number : String
  carrier : String
  estimated_delivery : String
  items : String
  return_eligible : Int
  subtotal : ℚ
  tax_rate : ℚ
  tax_collected : ℚ
  tax_verified : Int
  created_at : String
  deriving DecidableEq, Repr

inductive Intent where
  | order_status
  | order_return
  | order_items
  | shipping_estimate
  | tax_inquiry
  | general_faq
  | unknown
  deriving DecidableEq, Repr

inductive Verdict where
  | correct
  | discrepancy
  | not_applicable
  | unknown_county
  deriving DecidableEq, Repr

structure TaxVerificationResult where
  applicable : Bool
  expected_rate : ℚ
  expected_tax : ℚ
  collected_tax : ℚ
  discrepancy : ℚ
  discrepancy_pct : ℚ
  verdict : Verdict
  county_rate_used : ℚ
  deriving DecidableEq, Repr

structure EvalMetrics where
  faithfulness : ℚ
  context_adherence : ℚ
  groundedness : ℚ
  completeness : ℚ
  chunk_attribution : List String
  deriving DecidableEq, Repr

-- ── Tax logic ────────────────────────────────────────────────────────────

/-- The constant `NC_STATE_BASE_RATE` from `index.ts`. -/
def NC_STATE_BASE_RATE : ℚ := 0.0475

/-- The `NC_COUNTY_TAX_RATES` record from `index.ts`, as an association list. -/
def NC_COUNTY_TAX_RATES : List (String × ℚ) :=
  [("alamance", 0.0200), ("alexander", 0.0225), ("anson", 0.0250),
   ("ashe", 0.0200), ("beaufort", 0.0225), ("bladen", 0.0225),
   ("brunswick", 0.0225), ("buncombe", 0.0250), ("burke", 0.0225),
   ("cabarrus", 0.0200), ("caldwell", 0.0200), ("camden", 0.0225),
   ("carteret", 0.0200), ("caswell", 0.0225), ("catawba", 0.0200),
   ("chatham", 0.0225), ("cherokee", 0.0225), ("chowan", 0.0225),
   ("clay", 0.0200), ("cleveland", 0.0225), ("columbus", 0.0250),
   ("craven", 0.0225), ("cumberland", 0.0250), ("currituck", 0.0225),
   ("dare", 0.0200), ("davidson", 0.0225), ("davie", 0.0225),
   ("duplin", 0.0225), ("durham", 0.0275), ("edgecombe", 0.0250),
   ("forsyth", 0.0225), ("franklin", 0.0250), ("gaston", 0.0200),
   ("gates", 0.0200), ("graham", 0.0200), ("granville", 0.0250),
   ("greene", 0.0225), ("guilford", 0.0225), ("halifax", 0.0250),
   ("harnett", 0.0225), ("haywood", 0.0225), ("henderson", 0.0225),
   ("hertford", 0.0250), ("hoke", 0.0250), ("hyde", 0.0225),
   ("iredell", 0.0200), ("jackson", 0.0225), ("johnston", 0.0225),
   ("jones", 0.0225), ("lee", 0.0225), ("lenoir", 0.0250),
   ("lincoln", 0.0225), ("macon", 0.0225), ("madison", 0.0225),
   ("martin", 0.0250), ("mcdowell", 0.0225), ("mecklenburg", 0.0250),
   ("mitchell", 0.0225), ("montgomery", 0.0225), ("moore", 0.0225),
   ("nash", 0.0250), ("newhanover", 0.0225), ("northampton", 0.0250),
   ("onslow", 0.0225), ("orange", 0.0275), ("pamlico", 0.0225),
   ("pasquotank", 0.0225), ("pender", 0.0225), ("perquimans", 0.0200),
   ("person", 0.0225), ("pitt", 0.0225), ("polk", 0.0225),
   ("randolph", 0.0200), ("richmond", 0.0250), ("robeson", 0.0250),
   ("rockingham", 0.0225), ("rowan", 0.0225), ("rutherford", 0.0225),
   ("sampson", 0.0225), ("scotland", 0.0250), ("stanly", 0.0225),
   ("stokes", 0.0225), ("surry", 0.0225), ("swain", 0.0225),
   ("transylvania", 0.0225), ("tyrrell", 0.0225), ("union", 0.0200),
   ("vance", 0.0250), ("wake", 0.0250), ("warren", 0.0250),
   ("washington", 0.0225), ("watauga", 0.0225), ("wayne", 0.0225),
   ("wilkes", 0.0200), ("wilson", 0.0250), ("yadkin", 0.0225),
   ("yancey", 0.0200)]

/-- Embedding of `order.customer_state?.trim().toUpperCase()`. -/
def normState (s : String) : String := upperStr (jsTrim s)

/-- Embedding of `order.customer_county?.trim().toLowerCase().replace(/\s+/g, '')`. -/
def normCountyKey (s : String) : String :=
  ⟨((jsTrim s).data.map Char.toLower).filter (fun c => !jsWs c)⟩

/-- The `Object.prototype` property names that survive the county
normalisation (which lower-cases the key): on these keys the JS record
access `NC_COUNTY_TAX_RATES[countyKey]` returns an inherited
function/object instead of `undefined`. -/
def protoLowerKeys : List String := ["constructor", "__proto__"]

/-- The function `verifyTax` from `index.ts`.  The record access
`NC_COUNTY_TAX_RATES[countyKey]` is modelled as own-property lookup in the
table; for the two lower-case `Object.prototype` property names
(`protoLowerKeys`) the JS access instead finds an inherited
function/object, and the source then computes NaN amounts in the
known-county branch — IEEE-float behaviour outside this exact-rational
model, reported as the C10 code bug (`verifyTax_proto_county_gap`). -/
def verifyTax (order : Order) : TaxVerificationResult :=
  let state := normState order.customer_state
  if state ≠ "NC" then
    { applicable := false
      expected_rate := 0
      expected_tax := 0
      collected_tax := order.tax_collected
      discrepancy := order.tax_collected
      discrepancy_pct := 0
      verdict := if order.tax_collected > 0 then .discrepancy else .not_applicable
      county_rate_used := 0 }
  else
    let countyKey := normCountyKey order.customer_county
    match NC_COUNTY_TAX_RATES.lookup countyKey with
    | none =>
      { applicable := true
        expected_rate := 0
        expected_tax := 0
        collected_tax := order.tax_collected
        discrepancy := 0
        discrepancy_pct := 0
        verdict := .unknown_county
        county_rate_used := 0 }
    | some countyRate =>
      let totalRate := NC_STATE_BASE_RATE + countyRate
      let expectedTax := round2 (order.subtotal * totalRate)
      let disc := round2 (order.tax_collected - expectedTax)
      let discPct : ℚ :=
        if expectedTax > 0 then (jsRound (|disc| / expectedTax * 10000) : ℚ) / 100
        else 0
      { applicable := true
        expected_rate := totalRate
        expected_tax := expectedTax
        collected_tax := order.tax_collected
        discrepancy := disc
        discrepancy_pct := discPct
        verdict := if |disc| < 0.01 then .correct else .discrepancy
        county_rate_used := countyRate }

-- ── Intent classification (from `classifyIntent` / `extractOrderId`) ─────

/-- The tax-vocabulary test `/tax|taxes|taxed|tax rate|tax amount|tax charge|sales tax/i`
applied to the lower-cased query. -/
def taxVocab (q : String) : Bool :=
  sContains q "tax" || sContains q "taxes" || sContains q "taxed" ||
  sContains q "tax rate" || sContains q "tax amount" || sContains q "tax charge" ||
  sContains q "sales tax"

/-- Does `/cert-\d{6}/i` match at the head of the character list? -/
def ordIdAt : List Char → Bool
  | c1 :: c2 :: c3 :: c4 :: c5 :: d1 :: d2 :: d3 :: d4 :: d5 :: d6 :: _ =>
      c1.toLower = 'c' && c2.toLower = 'e' && c3.toLower = 'r' && c4.toLower = 't' &&
      c5 = '-' && d1.isDigit && d2.isDigit && d3.isDigit && d4.isDigit &&
      d5.isDigit && d6.isDigit
  | _ => false

/-- Does `/cert-\d{6}/i` match anywhere in the list? -/
def hasOrdId : List Char → Bool
  | [] => false
  | c :: rest => ordIdAt (c :: rest) || hasOrdId rest

/-- Embedding of `/cert-\d{6}/i.test(query)` (on the raw, not lower-cased, query). -/
def hasOrderId (s : String) : Bool := hasOrdId s.data

/-- JS regex line terminators, which `.` does not match:
`\n`, `\r`, U+2028, U+2029. -/
def jsLineTerm (c : Char) : Bool :=
  c = '\n' || c = '\r' || c = '\u2028' || c = '\u2029'

/-- Can `order` be reached from the head of the list with `.*`
(where `.` matches any character except a line terminator)? -/
def orderAfterDot : List Char → Bool
  | [] => false
  | c :: rest => lstarts "order".data (c :: rest) || (!jsLineTerm c && orderAfterDot rest)

/-- The regex fragment `what.*order` as a matcher over the whole list. -/
def whatThenOrder : List Char → Bool
  | [] => false
  | c :: rest =>
      (lstarts "what".data (c :: rest) && orderAfterDot (List.drop 4 (c :: rest))) ||
      whatThenOrder rest

/-- Embedding of `/return|refund|rma|exchange|send back/i` on the lower-cased query. -/
def returnVocabOrderId (q : String) : Bool :=
  sContains q "return" || sContains q "refund" || sContains q "rma" ||
  sContains q "exchange" || sContains q "send back"

/-- Embedding of `/item|product|what.*order|contents|kit|gear/i` on the lower-cased query. -/
def itemVocab (q : String) : Bool :=
  sContains q "item" || sContains q "product" || whatThenOrder q.data ||
  sContains q "contents" || sContains q "kit" || sContains q "gear"

/-- Embedding of `/deliver|arrival|when|eta|ship|transit/i` on the lower-cased query. -/
def shipVocabOrderId (q : String) : Bool :=
  sContains q "deliver" || sContains q "arrival" || sContains q "when" ||
  sContains q "eta" || sContains q "ship" || sContains q "transit"

/-- Embedding of `/return|refund|rma|exchange/i` on the lower-cased query. -/
def returnVocabPlain (q : String) : Bool :=
  sContains q "return" || sContains q "refund" || sContains q "rma" ||
  sContains q "exchange"

/-- Embedding of `/deliver|ship|transit|arrival|how long/i` on the lower-cased query. -/
def shipVocabPlain (q : String) : Bool :=
  sContains q "deliver" || sContains q "ship" || sContains q "transit" ||
  sContains q "arrival" || sContains q "how long"

/-- The function `classifyIntent` from `index.ts`. -/
def classifyIntent (query : String) : Intent :=
  let q := lowerStr query
  if taxVocab q then .tax_inquiry
  else if hasOrderId query then
    if returnVocabOrderId q then .order_return
    else if itemVocab q then .order_items
    else if shipVocabOrderId q then .shipping_estimate
    else .order_status
  else if returnVocabPlain q then .order_return
  else if shipVocabPlain q then .shipping_estimate
  else .general_faq

/-- First match of `/CERT-\d{6}/i` starting at each successive position. -/
def firstIdFrom : List Char → Option (List Char)
  | [] => none
  | c :: rest =>
      if ordIdAt (c :: rest) then some (List.take 11 (c :: rest)) else firstIdFrom rest

/-- The function `extractOrderId` from `index.ts`: first `/CERT-\d{6}/i` match, upper-cased. -/
def extractOrderId (query : String) : Option String :=
  (firstIdFrom query.data).map (fun l => ⟨l.map Char.toUpper⟩)

-- ── Claim-side (spec-worded) definitions ─────────────────────────────────

/-- The order-ID sub-classification exactly as claim C5 words it:
vocabularies `return/refund/rma/exchange`, `item/product/contents/kit/gear`,
`delivery/arrival/eta/ship/transit`, otherwise `order_status`.  This is a
spec-side definition, to be compared against `classifyIntent`. -/
def claimSubClassifyC5 (query : String) : Intent :=
  let q := lowerStr query
  if sContains q "return" || sContains q "refund" || sContains q "rma" ||
     sContains q "exchange" then .order_return
  else if sContains q "item" || sContains q "product" || sContains q "contents" ||
     sContains q "kit" || sContains q "gear" then .order_items
  else if sContains q "delivery" || sContains q "arrival" || sContains q "eta" ||
     sContains q "ship" || sContains q "transit" then .shipping_estimate
  else .order_status

-- ── Galileo-style evaluator (from `evaluateResponse`) ────────────────────

/-- JS regex word character (`\w`): letter, digit or underscore. -/
def isWordChar (c : Char) : Bool := c.isAlpha || c.isDigit || c = '_'

/-- Scanner for `/\b[0-9]{10,}\b/`: `runLen` is the length of the digit run
currently being read; `runValid` records whether that run began at a word
boundary (when `runLen = 0` it records whether a run starting now would). -/
def scanNum : List Char → Nat → Bool → Bool
  | [], runLen, runValid => runValid && decide (10 ≤ runLen)
  | c :: rest, runLen, runValid =>
    if c.isDigit then scanNum rest (runLen + 1) runValid
    else if runValid && decide (10 ≤ runLen) && !(isWordChar c) then true
    else scanNum rest 0 (!(isWordChar c))

/-- Embedding of `/\b[0-9]{10,}\b/.test(l)`: a standalone digit run of length ≥ 10. -/
def hasStandaloneLongNum (l : List Char) : Bool := scanNum l 0 true

/-- JS `String(number)` rendering, for rationals with at most two decimal
places (the monetary amounts the program manipulates): integers render with
no decimal point and trailing zeros are dropped, e.g. `String(13.7) = "13.7"`. -/
def jsNumStr (q : ℚ) : String :=
  if q.den = 1 then toString q.num
  else if (q * 10).den = 1 then
    let t := (q * 10).num
    (if t < 0 then "-" else "") ++ toString (Int.natAbs t / 10) ++ "." ++
      toString (Int.natAbs t % 10)
  else
    let c := (q * 100).num
    (if c < 0 then "-" else "") ++ toString (Int.natAbs c / 100) ++ "." ++
      (if Int.natAbs c % 100 < 10 then "0" else "") ++ toString (Int.natAbs c % 100)

/-- Embedding of `customer_name.split(' ')[0]`. -/
def firstWord (s : String) : String := ⟨s.data.takeWhile (fun c => c ≠ ' ')⟩

/-- The `intentKeywords` record from `evaluateResponse`. -/
def intentKeywords : Intent → List String
  | .order_status => ["status", "shipped", "processing", "delivered", "transit"]
  | .order_return => ["return", "refund", "rma", "eligible", "exchange"]
  | .order_items => ["item", "product", "kit", "vest", "gear", "sku", "qty"]
  | .shipping_estimate => ["deliver", "arrival", "estimated", "carrier", "tracking"]
  | .tax_inquiry => ["tax", "rate", "charged", "amount", "county", "correct"]
  | .general_faq => ["help", "support", "contact", "question"]
  | .unknown => []

/-- The function `evaluateResponse` from `index.ts`. -/
def evaluateResponse (intent : Intent) (order : Option Order) (response : String)
    (taxResult : Option TaxVerificationResult) : EvalMetrics :=
  let r := lowerStr response
  match order with
  | none =>
    { faithfulness := if sContains r "order" then 0.9 else 0.7
      context_adherence := 1
      groundedness := 0.5
      completeness := if r.data.length > 80 then 0.8 else 0.5
      chunk_attribution := [] }
  | some order =>
    let inventedTracking :=
      (order.tracking_number != "") &&
      !(sContains r (lowerStr order.tracking_number)) &&
      hasStandaloneLongNum r.data
    let faithfulness : ℚ := if inventedTracking then 0.4 else 0.95
    let attribution : List String :=
      (if sContains r (lowerStr order.status) then ["status"] else []) ++
      (if sContains r (lowerStr order.tracking_number) then ["tracking_number"] else []) ++
      (if sContains r (lowerStr order.carrier) then ["carrier"] else []) ++
      (if sContains r (lowerStr order.estimated_delivery) then ["estimated_delivery"] else []) ++
      (if sContains r (lowerStr (firstWord order.customer_name)) then ["customer_name"] else []) ++
      (if (order.tax_collected != 0) && sContains r (jsNumStr order.tax_collected) then
        ["tax_collected"] else []) ++
      (match taxResult with
       | some t => if sContains r (jsNumStr t.expected_tax) then ["expected_tax"] else []
       | none => [])
    let keywords := intentKeywords intent
    let hits := (keywords.filter (fun kw => sContains r kw)).length
    let contextAdherence : ℚ :=
      if keywords.length > 0 then min 1 (0.5 + ((hits : ℚ) / (keywords.length : ℚ)) * 0.5)
      else 0.8
    let groundedness : ℚ :=
      if attribution.length ≥ 2 then 0.95
      else if attribution.length = 1 then 0.75
      else 0.5
    let completeness : ℚ :=
      if r.data.length > 120 then 0.9
      else if r.data.length > 60 then 0.75
      else 0.5
    { faithfulness := faithfulness
      context_adherence := contextAdherence
      groundedness := groundedness
      completeness := completeness
      chunk_attribution := attribution }

-- ── Prompt builder (from `buildPrompt` and the `OrderItem` type) ─────────

structure OrderItem where
  name : String
  qty : ℚ
  sku : String
  deriving DecidableEq, Repr

/-- JSON values, as produced by `JSON.parse`. -/
inductive JsonVal where
  | null
  | bool (b : Bool)
  | num (q : ℚ)
  | str (s : String)
  | arr (vs : List JsonVal)
  | obj (kvs : List (String × JsonVal))
  deriving Repr

/-- JSON insignificant whitespace. -/
def jsonWs (c : Char) : Bool := c = ' ' || c = '\t' || c = '\n' || c = '\r'

/-- Skip JSON whitespace. -/
def skipWsJ (l : List Char) : List Char := l.dropWhile jsonWs

/-- Numeric value of a list of decimal digits. -/
def natOfDigits (l : List Char) : Nat :=
  l.foldl (fun n c => n * 10 + (c.toNat - '0'.toNat)) 0

/-- Value of one hex digit. -/
def hexVal (c : Char) : Option Nat :=
  if '0' ≤ c ∧ c ≤ '9' then some (c.toNat - '0'.toNat)
  else if 'a' ≤ c ∧ c ≤ 'f' then some (c.toNat - 'a'.toNat + 10)
  else if 'A' ≤ c ∧ c ≤ 'F' then some (c.toNat - 'A'.toNat + 10)
  else none

/-- Character for a code point; code points that are not Lean scalar values
(lone surrogates) map to U+FFFD, a restriction of this model (JS strings keep
lone surrogate code units). -/
def uniChar (n : Nat) : Char :=
  if n.isValidChar then Char.ofNat n else '\uFFFD'

/-- Parse the body of a JSON string literal after the opening quote:
escapes are decoded (including surrogate pairs), and raw control characters
below U+0020 are rejected, as `JSON.parse` does. -/
def parseStrBody : Nat → List Char → List Char → Option (String × List Char)
  | 0, _, _ => none
  | fuel + 1, l, acc =>
    match l with
    | [] => none
    | '"' :: rest => some (⟨acc.reverse⟩, rest)
    | '\\' :: esc =>
      match esc with
      | '"' :: r => parseStrBody fuel r ('"' :: acc)
      | '\\' :: r => parseStrBody fuel r ('\\' :: acc)
      | '/' :: r => parseStrBody fuel r ('/' :: acc)
      | 'b' :: r => parseStrBody fuel r ('\x08' :: acc)
      | 'f' :: r => parseStrBody fuel r ('\x0c' :: acc)
      | 'n' :: r => parseStrBody fuel r ('\n' :: acc)
      | 'r' :: r => parseStrBody fuel r ('\r' :: acc)
      | 't' :: r => parseStrBody fuel r ('\t' :: acc)
      | 'u' :: h1 :: h2 :: h3 :: h4 :: r =>
        match hexVal h1, hexVal h2, hexVal h3, hexVal h4 with
        | some a, some b, some c, some d =>
          let n1 := ((a * 16 + b) * 16 + c) * 16 + d
          if 0xd800 ≤ n1 ∧ n1 < 0xdc00 then
            match r with
            | '\\' :: 'u' :: g1 :: g2 :: g3 :: g4 :: r2 =>
              match hexVal g1, hexVal g2, hexVal g3, hexVal g4 with
              | some e2, some f2, some g2v, some h2v =>
                let n2 := ((e2 * 16 + f2) * 16 + g2v) * 16 + h2v
                if 0xdc00 ≤ n2 ∧ n2 < 0xe000 then
                  parseStrBody fuel r2
                    (uniChar (0x10000 + (n1 - 0xd800) * 0x400 + (n2 - 0xdc00)) :: acc)
                else
                  parseStrBody fuel r ('\uFFFD' :: acc)
              | _, _, _, _ => parseStrBody fuel r ('\uFFFD' :: acc)
            | _ => parseStrBody fuel r ('\uFFFD' :: acc)
          else
            parseStrBody fuel r (uniChar n1 :: acc)
        | _, _, _, _ => none
      | _ => none
    | c :: rest =>
        if c.toNat < 0x20 then none else parseStrBody fuel rest (c :: acc)

/-- Parse the optional exponent tail of a JSON number (after `e`/`E`). -/
def parseExpTail (r : List Char) : Option (Bool × Nat × List Char) :=
  let eneg : Bool := match r with | '-' :: _ => true | _ => false
  let r1 : List Char := match r with | '+' :: t => t | '-' :: t => t | _ => r
  let ed := r1.takeWhile (fun x => x.isDigit)
  if ed.isEmpty then none
  else some (eneg, natOfDigits ed, r1.dropWhile (fun x => x.isDigit))

/-- Parse a JSON number: `-? (0 | [1-9][0-9]*) ('.' [0-9]+)? ([eE][+-]?[0-9]+)?`.
JSON numbers are read exactly into `ℚ` (the file-level numeric model), rather
than rounded to binary floating point as `JSON.parse` does. -/
def parseNum (l : List Char) : Option (ℚ × List Char) :=
  let neg : Bool := match l with | '-' :: _ => true | _ => false
  let l1 : List Char := match l with | '-' :: t => t | _ => l
  let ipOpt : Option (Nat × List Char) :=
    match l1 with
    | '0' :: r => some (0, r)
    | c :: r =>
      if c.isDigit then
        some (natOfDigits ((c :: r).takeWhile (fun x => x.isDigit)),
              (c :: r).dropWhile (fun x => x.isDigit))
      else none
    | [] => none
  match ipOpt with
  | none => none
  | some (ip, r1) =>
    let fracOpt : Option (ℚ × List Char) :=
      match r1 with
      | '.' :: r =>
        let fd := r.takeWhile (fun x => x.isDigit)
        if fd.isEmpty then none
        else some ((natOfDigits fd : ℚ) / (10 : ℚ) ^ fd.length,
                   r.dropWhile (fun x => x.isDigit))
      | _ => some (0, r1)
    match fracOpt with
    | none => none
    | some (fq, r2) =>
      let expOpt : Option (Bool × Nat × List Char) :=
        match r2 with
        | 'e' :: r => parseExpTail r
        | 'E' :: r => parseExpTail r
        | _ => some (false, 0, r2)
      match expOpt with
      | none => none
      | some (eneg, e, r3) =>
        let base : ℚ := (ip : ℚ) + fq
        let scaled : ℚ := if eneg then base / (10 : ℚ) ^ e else base * (10 : ℚ) ^ e
        some (if neg then -scaled else scaled, r3)

mutual

/-- Parse one JSON value (recursive descent, fuelled by input length). -/
def parseVal : Nat → List Char → Option (JsonVal × List Char)
  | 0, _ => none
  | fuel + 1, l =>
    match l with
    | 'n' :: 'u' :: 'l' :: 'l' :: r => some (.null, r)
    | 't' :: 'r' :: 'u' :: 'e' :: r => some (.bool true, r)
    | 'f' :: 'a' :: 'l' :: 's' :: 'e' :: r => some (.bool false, r)
    | '"' :: r => (parseStrBody (r.length + 1) r []).map (fun p => (.str p.1, p.2))
    | '[' :: r =>
      match skipWsJ r with
      | ']' :: r2 => some (.arr [], r2)
      | r2 =>
        match parseVal fuel r2 with
        | none => none
        | some (v, r3) => parseElems fuel r3 [v]
    | '{' :: r =>
      match skipWsJ r with
      | '}' :: r2 => some (.obj [], r2)
      | r2 =>
        match parseMember fuel r2 with
        | none => none
        | some (kv, r3) => parseMembers fuel r3 [kv]
    | _ => (parseNum l).map (fun p => (.num p.1, p.2))

/-- Parse the remaining `, value`* `]` of an array. -/
def parseElems : Nat → List Char → List JsonVal → Option (JsonVal × List Char)
  | 0, _, _ => none
  | fuel + 1, l, acc =>
    match skipWsJ l with
    | ',' :: r =>
      match parseVal fuel (skipWsJ r) with
      | none => none
      | some (v, r2) => parseElems fuel r2 (v :: acc)
    | ']' :: r => some (.arr acc.reverse, r)
    | _ => none

/-- Parse one `"key": value` object member. -/
def parseMember : Nat → List Char → Option ((String × JsonVal) × List Char)
  | 0, _ => none
  | fuel + 1, l =>
    match l with
    | '"' :: r =>
      match parseStrBody (r.length + 1) r [] with
      | none => none
      | some (k, r1) =>
        match skipWsJ r1 with
        | ':' :: r2 =>
          match parseVal fuel (skipWsJ r2) with
          | none => none
          | some (v, r3) => some ((k, v), r3)
        | _ => none
    | _ => none

/-- Parse the remaining `, member`* `}` of an object. -/
def parseMembers : Nat → List Char → List (String × JsonVal) →
    Option (JsonVal × List Char)
  | 0, _, _ => none
  | fuel + 1, l, acc =>
    match skipWsJ l with
    | ',' :: r =>
      match parseMember fuel (skipWsJ r) with
      | none => none
      | some (kv, r2) => parseMembers fuel r2 (kv :: acc)
    | '}' :: r => some (.obj acc.reverse, r)
    | _ => none

end

/-- Model of `JSON.parse`: the full JSON grammar (objects, arrays, strings
with escapes, numbers with fractions and exponents, `true`/`false`/`null`),
rejecting raw control characters in strings and leading zeros in numbers as
JS does.  `none` models a thrown `SyntaxError`. -/
def jsonParse (s : String) : Option JsonVal :=
  match parseVal (s.data.length + 1) (skipWsJ s.data) with
  | some (v, rest) => if (skipWsJ rest).isEmpty then some v else none
  | none => none

/-- Own-property access on a parsed JSON object: `JSON.parse` keeps the last
occurrence of a duplicated key, so the lookup is right-to-left. -/
def jsObjGet (kvs : List (String × JsonVal)) (k : String) : Option JsonVal :=
  kvs.reverse.lookup k

mutual

/-- JS `ToString` of a parsed JSON value as used by template interpolation:
numbers render as decimal strings, arrays join their elements with `,`
(with `null` elements rendered empty), objects render `[object Object]`. -/
def jsToString : JsonVal → String
  | .null => "null"
  | .bool b => if b then "true" else "false"
  | .num q => jsNumStr q
  | .str s => s
  | .obj _ => "[object Object]"
  | .arr vs => String.intercalate "," (jsToStringElems vs)

/-- Rendering of array elements for `Array.prototype.join`. -/
def jsToStringElems : List JsonVal → List String
  | [] => []
  | .null :: rest => "" :: jsToStringElems rest
  | v :: rest => jsToString v :: jsToStringElems rest

end

/-- Template rendering of a possibly-undefined property value. -/
def jsToStrOrUndef : Option JsonVal → String
  | none => "undefined"
  | some v => jsToString v

/-- One pass of the item `map` callback over a raw parsed element:
`` `${i.qty}x ${i.name} (SKU: ${i.sku})` ``.  A `null` element throws
(property access on `null`), modelled as `none`; on any other non-object the
three properties are `undefined`. -/
def jsItemLine (v : JsonVal) : Option String :=
  match v with
  | .null => none
  | .obj kvs =>
      some (jsToStrOrUndef (jsObjGet kvs "qty") ++ "x " ++
            jsToStrOrUndef (jsObjGet kvs "name") ++ " (SKU: " ++
            jsToStrOrUndef (jsObjGet kvs "sku") ++ ")")
  | _ =>
      some (jsToStrOrUndef none ++ "x " ++ jsToStrOrUndef none ++ " (SKU: " ++
            jsToStrOrUndef none ++ ")")

/-- The `items.map(...).join(', ')` applied to the raw parse result: a
non-array parse result makes `.map` throw a `TypeError` outside the `try`
(modelled as `none`). -/
def renderItems : JsonVal → Option String
  | .arr vs => (vs.mapM jsItemLine).map (String.intercalate ", ")
  | _ => none

/-- Embedding of JS `toFixed(2)` on exact monetary rationals. -/
def toFixed2 (q : ℚ) : String :=
  let n := jsRound (q * 100)
  (if n < 0 then "-" else "") ++ toString (Int.natAbs n / 100) ++ "." ++
    (if Int.natAbs n % 100 < 10 then "0" else "") ++ toString (Int.natAbs n % 100)

/-- Embedding of JS `toFixed(4)` on exact rate rationals. -/
def toFixed4 (q : ℚ) : String :=
  let n := jsRound (q * 10000)
  let frac := Int.natAbs n % 10000
  (if n < 0 then "-" else "") ++ toString (Int.natAbs n / 10000) ++ "." ++
    (if frac < 10 then "000" else if frac < 100 then "00" else if frac < 1000 then "0" else "") ++
    toString frac

/-- Rendering of one item: `` `${i.qty}x ${i.name} (SKU: ${i.sku})` ``. -/
def itemLine (i : OrderItem) : String :=
  jsNumStr i.qty ++ "x " ++ i.name ++ " (SKU: " ++ i.sku ++ ")"

/-- The `itemList` join: `items.map(...).join(', ')`. -/
def itemListStr (items : List OrderItem) : String :=
  String.intercalate ", " (items.map itemLine)

/-- The `returnStatus` ternary from `buildPrompt`. -/
def returnStatusStr (order : Order) : String :=
  if order.return_eligible != 0 then "eligible for return within 30 days"
  else "not eligible for return"

/-- The `taxBlock` composed in `buildPrompt`. -/
def taxBlockStr (order : Order) (t : TaxVerificationResult) : String :=
  if !t.applicable then
    "\nTax Note: This order is from " ++ order.customer_state ++
    " — no NC sales tax applies. " ++
    (if order.tax_collected > 0 then
      "However, $" ++ toFixed2 order.tax_collected ++ " was collected — this is a discrepancy."
    else "No tax was collected. Correct.")
  else if t.verdict = Verdict.correct then
    "\nTax Note: NC " ++ order.customer_county ++ " County. " ++
    "Rate: " ++ toFixed4 (t.expected_rate * 100) ++ "% " ++
    "(State " ++ toFixed2 (NC_STATE_BASE_RATE * 100) ++ "% + County " ++
    toFixed2 (t.county_rate_used * 100) ++ "%). " ++
    "Tax collected $" ++ toFixed2 t.collected_tax ++ " is CORRECT."
  else if t.verdict = Verdict.discrepancy then
    "\nTax Note: NC " ++ order.customer_county ++ " County. " ++
    "Expected $" ++ toFixed2 t.expected_tax ++ " at " ++
    toFixed4 (t.expected_rate * 100) ++ "%, " ++
    "collected $" ++ toFixed2 t.collected_tax ++ ". " ++
    "Customer was " ++ (if t.discrepancy > 0 then "overcharged" else "undercharged") ++
    " by $" ++ toFixed2 |t.discrepancy| ++ " — FLAG FOR REVIEW."
  else if t.verdict = Verdict.unknown_county then
    "\nTax Note: County \"" ++ order.customer_county ++
    "\" not found in rate table. Manual review required."
  else ""

/-- The `base` prompt preamble. -/
def basePrompt : String :=
  "You are a concise, professional customer support agent for CERT Outfitters,\nan emergency-preparedness gear company. Respond in 2–4 sentences maximum.\nDo not invent information. If a piece of data is missing, say so plainly."

/-- The per-intent final instruction table. -/
def intentInstructions : Intent → String
  | .order_status => "Report the current order status and tracking details."
  | .order_return => "State whether the order is return-eligible and outline the return process."
  | .order_items => "List the items in the order clearly."
  | .shipping_estimate => "State the estimated delivery date and carrier."
  | .tax_inquiry => "Explain the tax charged, whether it is correct, and flag any discrepancy."
  | .general_faq => "Answer the general question using available context."
  | .unknown => "Answer helpfully using available context."

/-- The trimmed `orderContext` template, parameterised by the rendered item
list (the source computes that argument from `order.items`). -/
def orderContextStr (order : Order) (taxResultOpt : Option TaxVerificationResult)
    (itemList : String) : String :=
  let taxBlock : String :=
    match taxResultOpt with
    | some t => taxBlockStr order t
    | none => ""
  jsTrim ("\nOrder ID:           " ++ order.order_id ++
    "\nCustomer:           " ++ order.customer_name ++
    "\nState/County:       " ++ order.customer_state ++ " / " ++ order.customer_county ++
    "\nStatus:             " ++ order.status ++
    "\nCarrier:            " ++ order.carrier ++
    "\nTracking:           " ++ order.tracking_number ++
    "\nEst. Delivery:      " ++ order.estimated_delivery ++
    "\nItems:              " ++ (if itemList = "" then "N/A" else itemList) ++
    "\nReturn Status:      " ++ returnStatusStr order ++
    "\nSubtotal:           $" ++ toFixed2 order.subtotal ++
    "\nTax Collected:      $" ++ toFixed2 order.tax_collected ++
    "\nOrder Date:         " ++ order.created_at ++ taxBlock)

/-- The order-present branch of `buildPrompt`, parameterised by the rendered
item list. -/
def orderPrompt (intent : Intent) (query : String) (order : Order)
    (taxResult : Option TaxVerificationResult) (itemList : String) : String :=
  basePrompt ++ "\n\nCustomer query: \"" ++ query ++ "\"\n\nOrder context:\n" ++
  orderContextStr order taxResult itemList ++ "\n\nInstruction: " ++
  intentInstructions intent

/-- The `buildPrompt` function from `index.ts`.  The result is `none` when
the source would throw (item `map` on a non-array parse result, outside the
guarded `JSON.parse`); a caught parse failure falls back to the typed empty
item list `[] as OrderItem[]`. -/
def buildPrompt (intent : Intent) (query : String) (order : Option Order)
    (taxResult : Option TaxVerificationResult) : Option String :=
  match order with
  | none =>
    match extractOrderId query with
    | some _ =>
      some (basePrompt ++ "\n\nCustomer query: \"" ++ query ++ "\"\n\n" ++
        "We could not locate this order in our system. Politely ask the customer to\ndouble-check their order number or contact support@certoutfitters.com.")
    | none =>
      some (basePrompt ++ "\n\nCustomer query: \"" ++ query ++ "\"\n\n" ++
        "Answer helpfully with general support information. If order data is needed,\nask for their CERT order number (format: CERT-XXXXXX).")
  | some order =>
    let itemListOpt : Option String :=
      match jsonParse order.items with
      | none => some (itemListStr ([] : List OrderItem))
      | some v => renderItems v
    match itemListOpt with
    | none => none
    | some itemList => some (orderPrompt intent query order taxResult itemList)

-- ── Claim-side definitions for the evaluator claims ──────────────────────

/-- All standalone digit runs of length ≥ 10 (the matches of
`/\b[0-9]{10,}\b/`), collected by the same scan as `scanNum`. -/
def standaloneTokensAux : List Char → List Char → Bool → List (List Char)
  | [], run, runValid =>
      if runValid && decide (10 ≤ run.length) then [run.reverse] else []
  | c :: rest, run, runValid =>
    if c.isDigit then standaloneTokensAux rest (c :: run) runValid
    else
      (if runValid && decide (10 ≤ run.length) && !(isWordChar c) then [run.reverse] else []) ++
      standaloneTokensAux rest [] (!(isWordChar c))

/-- The standalone numeric tokens (length ≥ 10) of a character list. -/
def standaloneLongTokens (l : List Char) : List (List Char) :=
  standaloneTokensAux l [] true

/-- Claim C4's trigger, as worded: the text contains a standalone numeric
token of length ≥ 10 that does not match the real tracking number. -/
def claimFabricatedToken (resp tracking : String) : Bool :=
  (standaloneLongTokens (lowerStr resp).data).any
    (fun t => t ≠ (lowerStr tracking).data)

/-- Claim C6's property for one attributed field name: the checked value for
that field occurs (case-insensitively) in the generated text. -/
def fieldOccurs (order : Order) (taxResult : Option TaxVerificationResult)
    (response : String) (f : String) : Bool :=
  let r := lowerStr response
  if f = "status" then sContains r (lowerStr order.status)
  else if f = "tracking_number" then sContains r (lowerStr order.tracking_number)
  else if f = "carrier" then sContains r (lowerStr order.carrier)
  else if f = "estimated_delivery" then sContains r (lowerStr order.estimated_delivery)
  else if f = "customer_name" then sContains r (lowerStr (firstWord order.customer_name))
  else if f = "tax_collected" then sContains r (jsNumStr order.tax_collected)
  else if f = "expected_tax" then
    match taxResult with
    | some t => sContains r (jsNumStr t.expected_tax)
    | none => false
  else false

-- ── Concrete orders used by witnesses (Scenarios A and C of the spec) ────

/-- Scenario A order: NC / Wake county, subtotal 189.99, collected 13.77. -/
def orderScenA : Order :=
  { order_id := "CERT-000001", customer_name := "Customer A",
    customer_state := "NC", customer_county := "Wake",
    status := "shipped", tracking_number := "TRACK-DUMMY-001",
    carrier := "UPS", estimated_delivery := "2026-02-28",
    items := "[]", return_eligible := 1, subtotal := 189.99,
    tax_rate := 0.0725, tax_collected := 13.77, tax_verified := 0,
    created_at := "2026-02-20" }

/-- Scenario C order: CA (non-taxable), collected 11.53. -/
def orderScenC : Order :=
  { order_id := "CERT-000009", customer_name := "Customer I",
    customer_state := "CA", customer_county := "San Diego",
    status := "shipped", tracking_number := "TRACK-DUMMY-009",
    carrier := "UPS", estimated_delivery := "2026-03-03",
    items := "[]", return_eligible := 1, subtotal := 159.00,
    tax_rate := 0.0725, tax_collected := 11.53, tax_verified := 0,
    created_at := "2026-02-22" }

/-- An NC order whose county is absent from the rate table. -/
def orderUnknownCounty : Order :=
  { order_id := "CERT-000099", customer_name := "Customer X",
    customer_state := "NC", customer_county := "Atlantis",
    status := "shipped", tracking_number := "TRACK-DUMMY-099",
    carrier := "UPS", estimated_delivery := "2026-03-09",
    items := "[]", return_eligible := 0, subtotal := 100.00,
    tax_rate := 0.0700, tax_collected := 7.00, tax_verified := 0,
    created_at := "2026-02-25" }

/-- An order whose tracking number is itself a ten-digit numeric token
(used by the C4 counterexample). -/
def orderNumTracking : Order :=
  { order_id := "CERT-000042", customer_name := "Customer K",
    customer_state := "NC", customer_county := "Wake",
    status := "shipped", tracking_number := "1234567890",
    carrier := "UPS", estimated_delivery := "2026-03-04",
    items := "[]", return_eligible := 1, subtotal := 50.00,
    tax_rate := 0.0725, tax_collected := 3.63, tax_verified := 0,
    created_at := "2026-02-20" }

/-- A small order for the attribution witness: only the status value occurs
in the witness response. -/
def orderAttr : Order :=
  { order_id := "CERT-000077", customer_name := "Ana B",
    customer_state := "NC", customer_county := "Wake",
    status := "shipped", tracking_number := "TRK9",
    carrier := "UPS", estimated_delivery := "2026-03-01",
    items := "[]", return_eligible := 1, subtotal := 10.00,
    tax_rate := 0.0725, tax_collected := 0, tax_verified := 0,
    created_at := "2026-02-20" }

/-- An order whose stored item field is not parseable JSON. -/
def orderBadItems : Order :=
  { order_id := "CERT-000055", customer_name := "Customer L",
    customer_state := "NC", customer_county := "Wake",
    status := "processing", tracking_number := "PENDING",
    carrier := "FedEx", estimated_delivery := "2026-03-05",
    items := "not json", return_eligible := 0, subtotal := 20.00,
    tax_rate := 0.0725, tax_collected := 1.45, tax_verified := 0,
    created_at := "2026-02-23" }

-- ═════════════════════════════ Theorems ═════════════════════════════════

-- sanity: Scenario A and B of the spec evaluate as documented
theorem scenarioA_verdict : (verifyTax orderScenA).verdict = Verdict.correct := by decide

theorem scenarioB_amounts :
    (verifyTax { orderScenA with customer_county := "Durham", subtotal := 212.75,
                                 tax_collected := 13.83 }).expected_tax = 15.96 ∧
    (verifyTax { orderScenA with customer_county := "Durham", subtotal := 212.75,
                                 tax_collected := 13.83 }).discrepancy = -2.13 ∧
    (verifyTax { orderScenA with customer_county := "Durham", subtotal := 212.75,
                                 tax_collected := 13.83 }).verdict = Verdict.discrepancy := by
  decide

/-- C1: for an NC order whose normalised county is in the rate table,
`verifyTax` returns `expected_tax = round2 (subtotal * (0.0475 + rate))`,
`discrepancy = round2 (tax_collected - expected_tax)`, verdict `correct`
exactly when `|discrepancy| < 0.01` and verdict `discrepancy` otherwise;
and when the collected tax equals the expected tax exactly, the discrepancy
is 0 and the verdict is `correct`. -/
theorem verifyTax_known_county (order : Order) (r : ℚ)
    (hstate : normState order.customer_state = "NC")
    (hcounty : NC_COUNTY_TAX_RATES.lookup (normCountyKey order.customer_county) = some r) :
    (verifyTax order).expected_tax = round2 (order.subtotal * (NC_STATE_BASE_RATE + r)) ∧
    (verifyTax order).discrepancy =
      round2 (order.tax_collected - round2 (order.subtotal * (NC_STATE_BASE_RATE + r))) ∧
    ((verifyTax order).verdict = Verdict.correct ↔ |(verifyTax order).discrepancy| < 0.01) ∧
    ((verifyTax order).verdict = Verdict.discrepancy ↔
      ¬ |(verifyTax order).discrepancy| < 0.01) ∧
    (order.tax_collected = round2 (order.subtotal * (NC_STATE_BASE_RATE + r)) →
      (verifyTax order).discrepancy = 0 ∧ (verifyTax order).verdict = Verdict.correct) := by
  have hne : ¬ normState order.customer_state ≠ "NC" := by simp [hstate]
  have hv : verifyTax order =
      { applicable := true
        expected_rate := NC_STATE_BASE_RATE + r
        expected_tax := round2 (order.subtotal * (NC_STATE_BASE_RATE + r))
        collected_tax := order.tax_collected
        discrepancy := round2 (order.tax_collected -
          round2 (order.subtotal * (NC_STATE_BASE_RATE + r)))
        discrepancy_pct :=
          if round2 (order.subtotal * (NC_STATE_BASE_RATE + r)) > 0 then
            (jsRound (|round2 (order.tax_collected -
                round2 (order.subtotal * (NC_STATE_BASE_RATE + r)))| /
              round2 (order.subtotal * (NC_STATE_BASE_RATE + r)) * 10000) : ℚ) / 100
          else 0
        verdict :=
          if |round2 (order.tax_collected -
              round2 (order.subtotal * (NC_STATE_BASE_RATE + r)))| < 0.01 then
            Verdict.correct
          else Verdict.discrepancy
        county_rate_used := r } := by
    simp only [verifyTax]
    rw [if_neg hne]
    simp only [hcounty]
  rw [hv]
  set e := round2 (order.subtotal * (NC_STATE_BASE_RATE + r)) with he
  set d := round2 (order.tax_collected - e) with hd
  refine ⟨rfl, rfl, ?_, ?_, ?_⟩
  · show (if |d| < 0.01 then Verdict.correct else Verdict.discrepancy) = Verdict.correct ↔
      |d| < 0.01
    split_ifs with h <;> simp [h]
  · show (if |d| < 0.01 then Verdict.correct else Verdict.discrepancy) = Verdict.discrepancy ↔
      ¬ |d| < 0.01
    split_ifs with h <;> simp [h]
  · intro heq
    have h0 : d = 0 := by
      rw [hd, heq, sub_self]
      decide
    constructor
    · exact h0
    · show (if |d| < 0.01 then Verdict.correct else Verdict.discrepancy) = Verdict.correct
      rw [h0]
      decide

/-- Witness for `verifyTax_known_county` at the Scenario A order. -/
theorem verifyTax_known_county_witness :
    (verifyTax orderScenA).expected_tax =
      round2 (orderScenA.subtotal * (NC_STATE_BASE_RATE + 0.0250)) ∧
    (verifyTax orderScenA).discrepancy =
      round2 (orderScenA.tax_collected -
        round2 (orderScenA.subtotal * (NC_STATE_BASE_RATE + 0.0250))) ∧
    ((verifyTax orderScenA).verdict = Verdict.correct ↔
      |(verifyTax orderScenA).discrepancy| < 0.01) ∧
    ((verifyTax orderScenA).verdict = Verdict.discrepancy ↔
      ¬ |(verifyTax orderScenA).discrepancy| < 0.01) ∧
    (orderScenA.tax_collected = round2 (orderScenA.subtotal * (NC_STATE_BASE_RATE + 0.0250)) →
      (verifyTax orderScenA).discrepancy = 0 ∧
      (verifyTax orderScenA).verdict = Verdict.correct) :=
  verifyTax_known_county orderScenA 0.0250 (by decide) (by decide)

/-- C2: for an order whose normalised region is not NC, `verifyTax` marks the
tax inapplicable with zero expected rate and tax; when tax was collected the
verdict is `discrepancy` with the full collected amount as discrepancy,
otherwise the verdict is `not_applicable` with zero discrepancy.
(The hypothesis `0 ≤ tax_collected` is the spec's data-model invariant on
monetary amounts.) -/
theorem verifyTax_non_taxable (order : Order)
    (hstate : normState order.customer_state ≠ "NC")
    (hnn : 0 ≤ order.tax_collected) :
    (verifyTax order).applicable = false ∧
    (verifyTax order).expected_rate = 0 ∧
    (verifyTax order).expected_tax = 0 ∧
    (0 < order.tax_collected →
      (verifyTax order).verdict = Verdict.discrepancy ∧
      (verifyTax order).discrepancy = order.tax_collected) ∧
    (¬ 0 < order.tax_collected →
      (verifyTax order).verdict = Verdict.not_applicable ∧
      (verifyTax order).discrepancy = 0) := by
  simp only [verifyTax]
  rw [if_pos hstate]
  refine ⟨rfl, rfl, rfl, ?_, ?_⟩
  · intro hpos
    constructor
    · simp only [gt_iff_lt, if_pos hpos]
    · rfl
  · intro hnp
    have hz : order.tax_collected = 0 := le_antisymm (not_lt.mp hnp) hnn
    constructor
    · simp only [gt_iff_lt, if_neg hnp]
    · exact hz

/-- Witness for `verifyTax_non_taxable` at the Scenario C order. -/
theorem verifyTax_non_taxable_witness :
    (verifyTax orderScenC).applicable = false ∧
    (verifyTax orderScenC).expected_rate = 0 ∧
    (verifyTax orderScenC).expected_tax = 0 ∧
    (0 < orderScenC.tax_collected →
      (verifyTax orderScenC).verdict = Verdict.discrepancy ∧
      (verifyTax orderScenC).discrepancy = orderScenC.tax_collected) ∧
    (¬ 0 < orderScenC.tax_collected →
      (verifyTax orderScenC).verdict = Verdict.not_applicable ∧
      (verifyTax orderScenC).discrepancy = 0) :=
  verifyTax_non_taxable orderScenC (by decide) (by decide)

/-- C9: in all three branches of `verifyTax`, the returned `collected_tax`
is the order's `tax_collected` field, unchanged. -/
theorem verifyTax_preserves_collected (order : Order) :
    (verifyTax order).collected_tax = order.tax_collected := by
  simp only [verifyTax]
  split
  · rfl
  · split <;> rfl

/-- Supporting lemma for C10: for an NC order whose normalised county is
absent from the rate table *and is not an `Object.prototype` property name*
(the domain on which the own-property model of the lookup is faithful), the
result has `applicable = true`, verdict `unknown_county`, and all of
`expected_rate`, `expected_tax`, `discrepancy`, `discrepancy_pct`,
`county_rate_used` equal to 0. -/
theorem verifyTax_unknown_county (order : Order)
    (hstate : normState order.customer_state = "NC")
    (hcounty : NC_COUNTY_TAX_RATES.lookup (normCountyKey order.customer_county) = none)
    (_hproto : normCountyKey order.customer_county ∉ protoLowerKeys) :
    (verifyTax order).applicable = true ∧
    (verifyTax order).verdict = Verdict.unknown_county ∧
    (verifyTax order).expected_rate = 0 ∧
    (verifyTax order).expected_tax = 0 ∧
    (verifyTax order).discrepancy = 0 ∧
    (verifyTax order).discrepancy_pct = 0 ∧
    (verifyTax order).county_rate_used = 0 := by
  have hne : ¬ normState order.customer_state ≠ "NC" := by simp [hstate]
  have hv : verifyTax order =
      { applicable := true
        expected_rate := 0
        expected_tax := 0
        collected_tax := order.tax_collected
        discrepancy := 0
        discrepancy_pct := 0
        verdict := Verdict.unknown_county
        county_rate_used := 0 } := by
    simp only [verifyTax]
    rw [if_neg hne]
    simp only [hcounty]
  rw [hv]
  exact ⟨rfl, rfl, rfl, rfl, rfl, rfl, rfl⟩

/-- C10: the failing input of the prototype-chain lookup bug.  County
"Constructor" normalises to "constructor", which is absent from the rate
table yet is an `Object.prototype` property name (likewise "__proto__"):
in JS `NC_COUNTY_TAX_RATES['constructor']` is the inherited constructor
function, not `undefined`, so the source skips the `unknown_county` branch
and computes NaN amounts with verdict `discrepancy`, contradicting the
claim and sections 4.2 and 7 of the spec. -/
theorem verifyTax_proto_county_gap :
    normCountyKey "Constructor" = "constructor" ∧
    NC_COUNTY_TAX_RATES.lookup "constructor" = none ∧
    "constructor" ∈ protoLowerKeys ∧
    normCountyKey "__proto__" = "__proto__" ∧
    NC_COUNTY_TAX_RATES.lookup "__proto__" = none ∧
    "__proto__" ∈ protoLowerKeys := by
  decide

/-- Witness for `verifyTax_unknown_county` at an NC order with county
"Atlantis". -/
theorem verifyTax_unknown_county_witness :
    (verifyTax orderUnknownCounty).applicable = true ∧
    (verifyTax orderUnknownCounty).verdict = Verdict.unknown_county ∧
    (verifyTax orderUnknownCounty).expected_rate = 0 ∧
    (verifyTax orderUnknownCounty).expected_tax = 0 ∧
    (verifyTax orderUnknownCounty).discrepancy = 0 ∧
    (verifyTax orderUnknownCounty).discrepancy_pct = 0 ∧
    (verifyTax orderUnknownCounty).county_rate_used = 0 :=
  verifyTax_unknown_county orderUnknownCounty (by decide) (by decide) (by decide)

/-- C3: `classifyIntent` is total (every query maps to exactly one `Intent`
value), and the tax-vocabulary check precedes order-ID detection: a query
with both tax vocabulary and a valid order identifier classifies as
`tax_inquiry`. -/
theorem classifyIntent_total_and_tax_precedence (query : String) :
    (∃! i : Intent, classifyIntent query = i) ∧
    (taxVocab (lowerStr query) = true → hasOrderId query = true →
      classifyIntent query = Intent.tax_inquiry) := by
  refine ⟨⟨classifyIntent query, rfl, fun y h => h.symm⟩, fun ht _hid => ?_⟩
  simp [classifyIntent, ht]

/-- Witness for `classifyIntent_total_and_tax_precedence` at Scenario D's
query, which contains both an order ID and tax vocabulary. -/
theorem classifyIntent_tax_precedence_witness :
    (∃! i : Intent,
      classifyIntent "Where is my CERT-123456 package, did you charge me the right tax?" = i) ∧
    (taxVocab (lowerStr "Where is my CERT-123456 package, did you charge me the right tax?") = true →
      hasOrderId "Where is my CERT-123456 package, did you charge me the right tax?" = true →
      classifyIntent "Where is my CERT-123456 package, did you charge me the right tax?" =
        Intent.tax_inquiry) :=
  classifyIntent_total_and_tax_precedence
    "Where is my CERT-123456 package, did you charge me the right tax?"

/-- C5 counterexample: the query "send back cert-123456" has no tax
vocabulary and contains an order identifier, yet `classifyIntent` returns
`order_return` (via the `send back` alternative of the code's regex) while
the claim's vocabularies (`claimSubClassifyC5`) predict `order_status`. -/
theorem classifyIntent_subvocab_counterexample :
    taxVocab (lowerStr "send back cert-123456") = false ∧
    hasOrderId "send back cert-123456" = true ∧
    classifyIntent "send back cert-123456" = Intent.order_return ∧
    claimSubClassifyC5 "send back cert-123456" = Intent.order_status ∧
    Intent.order_return ≠ Intent.order_status := by
  decide

/-- C5 (amended): for a query without tax vocabulary that contains an order
identifier, `classifyIntent` sub-classifies by the code's vocabularies, in
order: return/refund/rma/exchange/"send back" → `order_return`;
item/product/"what…order"/contents/kit/gear → `order_items`;
deliver/arrival/when/eta/ship/transit → `shipping_estimate`; otherwise
`order_status`. -/
theorem classifyIntent_order_id_subclassify (query : String)
    (htax : taxVocab (lowerStr query) = false)
    (hid : hasOrderId query = true) :
    classifyIntent query =
      (if returnVocabOrderId (lowerStr query) then Intent.order_return
       else if itemVocab (lowerStr query) then Intent.order_items
       else if shipVocabOrderId (lowerStr query) then Intent.shipping_estimate
       else Intent.order_status) := by
  simp [classifyIntent, htax, hid]

/-- Witness for `classifyIntent_order_id_subclassify` at a plain status
query. -/
theorem classifyIntent_order_id_subclassify_witness :
    taxVocab (lowerStr "status of cert-123456") = false ∧
    hasOrderId "status of cert-123456" = true ∧
    classifyIntent "status of cert-123456" =
      (if returnVocabOrderId (lowerStr "status of cert-123456") then Intent.order_return
       else if itemVocab (lowerStr "status of cert-123456") then Intent.order_items
       else if shipVocabOrderId (lowerStr "status of cert-123456") then Intent.shipping_estimate
       else Intent.order_status) :=
  ⟨by decide, by decide,
    classifyIntent_order_id_subclassify "status of cert-123456" (by decide) (by decide)⟩

-- sanity: `.` in `what.*order` does not cross a carriage return, so a
-- CR-separated query falls through to `order_status` as in the source
theorem classifyIntent_cr_query :
    classifyIntent "what\rorder cert-123456" = Intent.order_status := by
  decide

/-- C8: `classifyIntent` never returns `unknown`; every query maps to one of
the six other intents. -/
theorem classifyIntent_never_unknown (query : String) :
    classifyIntent query = Intent.order_status ∨
    classifyIntent query = Intent.order_return ∨
    classifyIntent query = Intent.order_items ∨
    classifyIntent query = Intent.shipping_estimate ∨
    classifyIntent query = Intent.tax_inquiry ∨
    classifyIntent query = Intent.general_faq := by
  simp only [classifyIntent]
  split_ifs <;> simp

/-- C4 counterexample: a response that contains the real tracking number
*and* a fabricated 12-digit number gets faithfulness 0.95 from the code,
although it contains a standalone numeric token of length ≥ 10 that does
not match the tracking number (so the claim predicts 0.4). -/
theorem evaluateResponse_faithfulness_counterexample :
    claimFabricatedToken "Tracking 1234567890 and 999999999999."
      orderNumTracking.tracking_number = true ∧
    (evaluateResponse Intent.order_status (some orderNumTracking)
      "Tracking 1234567890 and 999999999999." none).faithfulness = 0.95 ∧
    (0.95 : ℚ) ≠ 0.4 := by
  refine ⟨by decide, by decide, by decide⟩

/-- C4 (amended): in the order-present branch, faithfulness is 0.4 exactly
when the tracking number is non-empty, the text does *not* contain the
tracking number (case-insensitively), and the text has a standalone numeric
token of length ≥ 10; in every other case it is 0.95. -/
theorem evaluateResponse_faithfulness_rule (intent : Intent) (order : Order)
    (response : String) (taxResult : Option TaxVerificationResult) :
    ((evaluateResponse intent (some order) response taxResult).faithfulness = 0.4 ↔
      ((order.tracking_number != "") &&
       !(sContains (lowerStr response) (lowerStr order.tracking_number)) &&
       hasStandaloneLongNum (lowerStr response).data) = true) ∧
    ((evaluateResponse intent (some order) response taxResult).faithfulness = 0.95 ↔
      ((order.tracking_number != "") &&
       !(sContains (lowerStr response) (lowerStr order.tracking_number)) &&
       hasStandaloneLongNum (lowerStr response).data) = false) := by
  have hev : (evaluateResponse intent (some order) response taxResult).faithfulness =
      if ((order.tracking_number != "") &&
          !(sContains (lowerStr response) (lowerStr order.tracking_number)) &&
          hasStandaloneLongNum (lowerStr response).data) then (0.4 : ℚ) else 0.95 := rfl
  rw [hev]
  cases hb : ((order.tracking_number != "") &&
      !(sContains (lowerStr response) (lowerStr order.tracking_number)) &&
      hasStandaloneLongNum (lowerStr response).data)
  · exact ⟨⟨fun h4 => absurd h4 (by decide), fun hct => absurd hct (by decide)⟩,
           ⟨fun _ => by decide, fun _ => by decide⟩⟩
  · exact ⟨⟨fun _ => by decide, fun _ => by decide⟩,
           ⟨fun h9 => absurd h9 (by decide), fun hct => absurd hct (by decide)⟩⟩

/-- Membership in a conditional singleton list yields the condition. -/
lemma mem_if_singleton {c : Prop} [Decidable c] {x f : String}
    (h : f ∈ (if c then [x] else [])) : f = x ∧ c := by
  split_ifs at h with hc
  · exact ⟨List.mem_singleton.mp h, hc⟩
  · cases h

/-- C6: every field name in the attribution list returned by
`evaluateResponse` corresponds to a checked value that occurs
(case-insensitively) in the generated text. -/
theorem evaluateResponse_attribution_sound (intent : Intent) (order : Order)
    (response : String) (taxResult : Option TaxVerificationResult) (f : String)
    (hf : f ∈ (evaluateResponse intent (some order) response taxResult).chunk_attribution) :
    fieldOccurs order taxResult response f = true := by
  cases taxResult with
  | none =>
      have hattr : (evaluateResponse intent (some order) response none).chunk_attribution =
          (if sContains (lowerStr response) (lowerStr order.status) then ["status"] else []) ++
          (if sContains (lowerStr response) (lowerStr order.tracking_number) then
            ["tracking_number"] else []) ++
          (if sContains (lowerStr response) (lowerStr order.carrier) then ["carrier"] else []) ++
          (if sContains (lowerStr response) (lowerStr order.estimated_delivery) then
            ["estimated_delivery"] else []) ++
          (if sContains (lowerStr response) (lowerStr (firstWord order.customer_name)) then
            ["customer_name"] else []) ++
          (if (order.tax_collected != 0) && sContains (lowerStr response)
              (jsNumStr order.tax_collected) then ["tax_collected"] else []) ++
          ([] : List String) := rfl
      rw [hattr] at hf
      simp only [List.mem_append] at hf
      rcases hf with ((((((h | h) | h) | h) | h) | h) | h)
      · obtain ⟨rfl, hc⟩ := mem_if_singleton h
        exact hc
      · obtain ⟨rfl, hc⟩ := mem_if_singleton h
        exact hc
      · obtain ⟨rfl, hc⟩ := mem_if_singleton h
        exact hc
      · obtain ⟨rfl, hc⟩ := mem_if_singleton h
        exact hc
      · obtain ⟨rfl, hc⟩ := mem_if_singleton h
        exact hc
      · obtain ⟨rfl, hc⟩ := mem_if_singleton h
        exact ((Bool.and_eq_true _ _).mp hc).2
      · exact absurd h (List.not_mem_nil f)
  | some t =>
      have hattr : (evaluateResponse intent (some order) response (some t)).chunk_attribution =
          (if sContains (lowerStr response) (lowerStr order.status) then ["status"] else []) ++
          (if sContains (lowerStr response) (lowerStr order.tracking_number) then
            ["tracking_number"] else []) ++
          (if sContains (lowerStr response) (lowerStr order.carrier) then ["carrier"] else []) ++
          (if sContains (lowerStr response) (lowerStr order.estimated_delivery) then
            ["estimated_delivery"] else []) ++
          (if sContains (lowerStr response) (lowerStr (firstWord order.customer_name)) then
            ["customer_name"] else []) ++
          (if (order.tax_collected != 0) && sContains (lowerStr response)
              (jsNumStr order.tax_collected) then ["tax_collected"] else []) ++
          (if sContains (lowerStr response) (jsNumStr t.expected_tax) then
            ["expected_tax"] else []) := rfl
      rw [hattr] at hf
      simp only [List.mem_append] at hf
      rcases hf with ((((((h | h) | h) | h) | h) | h) | h)
      · obtain ⟨rfl, hc⟩ := mem_if_singleton h
        exact hc
      · obtain ⟨rfl, hc⟩ := mem_if_singleton h
        exact hc
      · obtain ⟨rfl, hc⟩ := mem_if_singleton h
        exact hc
      · obtain ⟨rfl, hc⟩ := mem_if_singleton h
        exact hc
      · obtain ⟨rfl, hc⟩ := mem_if_singleton h
        exact hc
      · obtain ⟨rfl, hc⟩ := mem_if_singleton h
        exact ((Bool.and_eq_true _ _).mp hc).2
      · obtain ⟨rfl, hc⟩ := mem_if_singleton h
        exact hc

/-- Witness for `evaluateResponse_attribution_sound`: for `orderAttr` and the
response "shipped", the field `status` is attributed and its value occurs. -/
theorem evaluateResponse_attribution_sound_witness :
    "status" ∈ (evaluateResponse Intent.order_status (some orderAttr)
      "shipped" none).chunk_attribution ∧
    fieldOccurs orderAttr none "shipped" "status" = true :=
  ⟨by decide,
   evaluateResponse_attribution_sound Intent.order_status orderAttr "shipped" none
     "status" (by decide)⟩

-- ── Substring lemmas used by the prompt-composition claim ────────────────

lemma data_append (a b : String) : (a ++ b).data = a.data ++ b.data := by
  cases a
  cases b
  rfl

lemma data_jsTrim (s : String) : (jsTrim s).data = dropTrail jsWs (s.data.dropWhile jsWs) := rfl

lemma lstarts_self : ∀ n : List Char, lstarts n n = true
  | [] => rfl
  | c :: t => by
      show (decide (c = c) && lstarts t t) = true
      simp [lstarts_self t]

lemma lstarts_append (n : List Char) : ∀ (h t : List Char),
    lstarts n h = true → lstarts n (h ++ t) = true := by
  induction n with
  | nil => intro h t _; rfl
  | cons p ps ih =>
    intro h t hs
    cases h with
    | nil => exact absurd hs (by simp [lstarts])
    | cons c cs =>
      have hs' : (decide (p = c) && lstarts ps cs) = true := hs
      have h2 := (Bool.and_eq_true _ _).mp hs'
      show (decide (p = c) && lstarts ps (cs ++ t)) = true
      rw [h2.1, ih cs t h2.2]
      rfl

lemma lstarts_append_self (n t : List Char) : lstarts n (n ++ t) = true :=
  lstarts_append n n t (lstarts_self n)

lemma lcontains_of_lstarts {n h : List Char} (hs : lstarts n h = true) :
    lcontains n h = true := by
  cases h with
  | nil => exact hs
  | cons c t =>
      show (lstarts n (c :: t) || lcontains n t) = true
      rw [hs]
      rfl

lemma lcontains_cons {n h : List Char} (c : Char) (hc : lcontains n h = true) :
    lcontains n (c :: h) = true := by
  show (lstarts n (c :: h) || lcontains n h) = true
  rw [hc, Bool.or_true]

lemma lcontains_self (n : List Char) : lcontains n n = true :=
  lcontains_of_lstarts (lstarts_self n)

lemma lcontains_append_left {n : List Char} : ∀ (h₁ h₂ : List Char),
    lcontains n h₁ = true → lcontains n (h₁ ++ h₂) = true := by
  intro h₁
  induction h₁ with
  | nil =>
    intro h₂ hc
    cases n with
    | nil => exact lcontains_of_lstarts rfl
    | cons a as => exact absurd hc (by simp [lcontains, lstarts])
  | cons c t ih =>
    intro h₂ hc
    have hc' : (lstarts n (c :: t) || lcontains n t) = true := hc
    rcases (Bool.or_eq_true _ _).mp hc' with hs | hct
    · exact lcontains_of_lstarts (lstarts_append n (c :: t) h₂ hs)
    · exact lcontains_cons c (ih h₂ hct)

lemma lcontains_append_right : ∀ (h₁ : List Char) {n h₂ : List Char},
    lcontains n h₂ = true → lcontains n (h₁ ++ h₂) = true
  | [], _, _, hc => hc
  | c :: t, _, _, hc => lcontains_cons c (lcontains_append_right t hc)

lemma lstarts_iff {n : List Char} : ∀ {h : List Char},
    lstarts n h = true ↔ ∃ t, h = n ++ t := by
  induction n with
  | nil =>
    intro h
    constructor
    · intro _
      exact ⟨h, rfl⟩
    · intro _
      rfl
  | cons p ps ih =>
    intro h
    cases h with
    | nil =>
      simp only [lstarts]
      constructor
      · intro hfalse; exact absurd hfalse (by simp)
      · rintro ⟨t, ht⟩; exact absurd ht (by simp)
    | cons c cs =>
      constructor
      · intro hs
        have hs' : (decide (p = c) && lstarts ps cs) = true := hs
        have h2 := (Bool.and_eq_true _ _).mp hs'
        obtain ⟨t, rfl⟩ := ih.mp h2.2
        exact ⟨t, by rw [of_decide_eq_true h2.1]; rfl⟩
      · rintro ⟨t, het⟩
        injection het with h1 h2
        show (decide (p = c) && lstarts ps cs) = true
        rw [decide_eq_true (h1.symm ▸ rfl : p = c), ih.mpr ⟨t, h2⟩]
        rfl

lemma lcontains_iff {n : List Char} : ∀ {h : List Char},
    lcontains n h = true ↔ ∃ s t, h = s ++ n ++ t := by
  intro h
  induction h with
  | nil =>
    rw [show lcontains n [] = lstarts n [] from rfl, lstarts_iff]
    constructor
    · rintro ⟨t, ht⟩; exact ⟨[], t, ht⟩
    · rintro ⟨s, t, hst⟩
      cases s with
      | nil => exact ⟨t, hst⟩
      | cons a as => exact absurd hst (by simp)
  | cons c cs ih =>
    constructor
    · intro hc
      have hc' : (lstarts n (c :: cs) || lcontains n cs) = true := hc
      rcases (Bool.or_eq_true _ _).mp hc' with hs | hct
      · obtain ⟨t, ht⟩ := lstarts_iff.mp hs
        exact ⟨[], t, ht⟩
      · obtain ⟨s, t, hst⟩ := ih.mp hct
        exact ⟨c :: s, t, by rw [hst]; rfl⟩
    · rintro ⟨s, t, hst⟩
      cases s with
      | nil =>
        exact lcontains_of_lstarts (lstarts_iff.mpr ⟨t, hst⟩)
      | cons a as =>
        injection hst with h1 h2
        exact h1 ▸ lcontains_cons a (ih.mpr ⟨as, t, h2⟩)

lemma lcontains_reverse {n h : List Char} (hc : lcontains n h = true) :
    lcontains n.reverse h.reverse = true := by
  obtain ⟨s, t, rfl⟩ := lcontains_iff.mp hc
  apply lcontains_iff.mpr
  exact ⟨t.reverse, s.reverse, by simp⟩

lemma lcontains_dropWhile {p : Char → Bool} {c0 : Char} {n' : List Char}
    (hp : p c0 = false) : ∀ {h : List Char}, lcontains (c0 :: n') h = true →
    lcontains (c0 :: n') (h.dropWhile p) = true := by
  intro h
  induction h with
  | nil => exact fun hc => hc
  | cons c t ih =>
    intro hc
    rw [List.dropWhile_cons]
    by_cases hpc : p c = true
    · rw [if_pos hpc]
      have hc' : (lstarts (c0 :: n') (c :: t) || lcontains (c0 :: n') t) = true := hc
      rcases (Bool.or_eq_true _ _).mp hc' with hs | hct
      · exfalso
        have hs' : (decide (c0 = c) && lstarts n' t) = true := hs
        have hceq : c0 = c := of_decide_eq_true ((Bool.and_eq_true _ _).mp hs').1
        rw [← hceq, hp] at hpc
        exact Bool.noConfusion hpc
      · exact ih hct
    · rw [if_neg hpc]
      exact hc

lemma lcontains_dropTrail (p : Char → Bool) (e : Char) (nrt : List Char)
    {n h : List Char} (hrev : n.reverse = e :: nrt) (hp : p e = false)
    (hc : lcontains n h = true) : lcontains n (dropTrail p h) = true := by
  have h1 := lcontains_reverse hc
  rw [hrev] at h1
  have h2 := lcontains_dropWhile hp h1
  have h3 := lcontains_reverse h2
  rw [← hrev, List.reverse_reverse] at h3
  exact h3

lemma str_append_assoc (a b c : String) : (a ++ b) ++ c = a ++ (b ++ c) := by
  cases a with | mk la =>
  cases b with | mk lb =>
  cases c with | mk lc =>
  show String.mk ((la ++ lb) ++ lc) = String.mk (la ++ (lb ++ lc))
  rw [List.append_assoc]

lemma sContains_append_left (a b p : String) (h : sContains a p = true) :
    sContains (a ++ b) p = true := by
  show lcontains p.data (a ++ b).data = true
  rw [data_append]
  exact lcontains_append_left _ _ h

lemma sContains_append_right (a b p : String) (h : sContains b p = true) :
    sContains (a ++ b) p = true := by
  show lcontains p.data (a ++ b).data = true
  rw [data_append]
  exact lcontains_append_right _ h

lemma sContains_jsTrim {s p : String} (e c0 : Char) (nrt n' : List Char)
    (hrev : p.data.reverse = e :: nrt) (hcons : p.data = c0 :: n')
    (hpe : jsWs e = false) (hpc : jsWs c0 = false)
    (h : sContains s p = true) : sContains (jsTrim s) p = true := by
  show lcontains p.data (jsTrim s).data = true
  rw [data_jsTrim]
  refine lcontains_dropTrail jsWs e nrt hrev hpe ?_
  rw [hcons]
  refine lcontains_dropWhile hpc ?_
  rw [← hcons]
  exact h

/-- With an empty rendered item list the composed prompt contains the
item line rendered as N/A and the final instruction marker. -/
lemma orderPrompt_empty_items_contains (intent : Intent) (query : String) (order : Order)
    (taxResult : Option TaxVerificationResult) :
    sContains (orderPrompt intent query order taxResult "") "Items:              N/A" = true ∧
    sContains (orderPrompt intent query order taxResult "") "Instruction: " = true := by
  constructor
  · unfold orderPrompt
    apply sContains_append_left
    apply sContains_append_left
    apply sContains_append_right
    simp only [orderContextStr, ite_true]
    refine sContains_jsTrim 'A' 'I' _ _ rfl rfl (by decide) (by decide) ?_
    apply sContains_append_left
    apply sContains_append_left
    apply sContains_append_left
    apply sContains_append_left
    apply sContains_append_left
    apply sContains_append_left
    apply sContains_append_left
    apply sContains_append_left
    apply sContains_append_left
    rw [str_append_assoc]
    apply sContains_append_right
    decide
  · unfold orderPrompt
    rw [str_append_assoc]
    apply sContains_append_right
    apply sContains_append_left
    decide

/-- C7: when the stored item list does not parse, `buildPrompt` treats it as
an empty item list and still returns a complete instruction text rather than
failing, with the item line rendered as `N/A`. -/
theorem buildPrompt_malformed_items (intent : Intent) (query : String) (order : Order)
    (taxResult : Option TaxVerificationResult)
    (h : jsonParse order.items = none) :
    buildPrompt intent query (some order) taxResult =
      some (orderPrompt intent query order taxResult "") ∧
    sContains (orderPrompt intent query order taxResult "")
      "Items:              N/A" = true ∧
    sContains (orderPrompt intent query order taxResult "")
      "Instruction: " = true := by
  refine ⟨?_, (orderPrompt_empty_items_contains intent query order taxResult).1,
    (orderPrompt_empty_items_contains intent query order taxResult).2⟩
  have h2 : itemListStr ([] : List OrderItem) = "" := by decide
  simp only [buildPrompt, h, h2]

/-- Witness for `buildPrompt_malformed_items` at an order whose stored item
field is not JSON. -/
theorem buildPrompt_malformed_items_witness :
    jsonParse orderBadItems.items = none ∧
    (buildPrompt Intent.order_items "what is in cert-000055" (some orderBadItems) none =
      some (orderPrompt Intent.order_items "what is in cert-000055" orderBadItems none "") ∧
     sContains (orderPrompt Intent.order_items "what is in cert-000055" orderBadItems none "")
       "Items:              N/A" = true ∧
     sContains (orderPrompt Intent.order_items "what is in cert-000055" orderBadItems none "")
       "Instruction: " = true) :=
  ⟨Option.isNone_iff_eq_none.mp (by decide),
   buildPrompt_malformed_items Intent.order_items "what is in cert-000055"
     orderBadItems none (Option.isNone_iff_eq_none.mp (by decide))⟩

-- sanity: the JSON.parse model accepts a genuine stored item list from the
-- repository's seed data and the raw map renders it as the source would
theorem jsonParse_seed_row :
    (jsonParse "[\x7b\"name\":\"CERT Folding Stretcher\",\"qty\":1,\"sku\":\"CO-FS-STD\"\x7d]").map
        renderItems =
      some (some "1x CERT Folding Stretcher (SKU: CO-FS-STD)") := by
  decide

-- sanity: escapes and exponents parse (so they do not satisfy C7's
-- hypothesis), while a raw control character in a string is rejected
theorem jsonParse_escape_exponent_control :
    (jsonParse "[\x7b\"name\":\"a\\\"b\",\"qty\":1e2,\"sku\":\"s\"\x7d]").isSome = true ∧
    (jsonParse "\"a\nb\"").isNone = true := by
  constructor
  · decide
  · decide

end CertAgent
